import Mathlib

/-!
Shallow embedding of deploy.py (apk-release-deploy), a release pipeline that
uploads an apk file to Dropbox, extracts the newest changelog section, renders
an email template into a subject/body pair, and posts it to a Zapier webhook.

Modelling conventions:
* Python strings are modelled as Lean `String`s, with most of the character
  work done on `List Char` (`String.toList` / `String.mk` at the boundaries).
* The HTTP responses that the script observes are modelled as explicit inputs
  collected in a `World` structure (status codes and the shared-link payload).
* Python `None` is `Option.none`; a Python function that can return either a
  string or `None` is modelled with result type `Option String`.
* File reads are modelled by passing the file contents as a string argument.
-/

namespace Deploy

/-- Exit code constant DROPBOX_ERROR_CODE = 1 (deploy.py line 25). -/
def DROPBOX_ERROR_CODE : Nat := 1

/-- Exit code constant ZAPIER_ERROR_CODE = 2 (deploy.py line 26). -/
def ZAPIER_ERROR_CODE : Nat := 2

/-- Exit code constant TEMPLATE_ERROR_CODE = 3 (deploy.py line 27). -/
def TEMPLATE_ERROR_CODE : Nat := 3

/-- Exit code constant CHANGES_ERROR_CODE = 4 (deploy.py line 28). -/
def CHANGES_ERROR_CODE : Nat := 4

/-- The HTTP success status the script compares against: requests.codes.ok = 200. -/
def REQUESTS_CODES_OK : Nat := 200

/-- Shape of the Dropbox-API-Arg dictionary sent with the upload request. -/
structure DropboxUploadArgs where
  path : Option String
  mode : String
  autorename : Bool
  strict_conflict : Bool
deriving DecidableEq

/-- The module-level DROPBOX_UPLOAD_ARGS dictionary (deploy.py lines 30-35):
path is initially None (filled in per call), mode is "overwrite",
autorename is True and strict_conflict is True. -/
def DROPBOX_UPLOAD_ARGS : DropboxUploadArgs :=
  { path := none
    mode := "overwrite"
    autorename := true
    strict_conflict := true }

/-- Python str.lower on a character list (ASCII case folding, as exercised by
the script's inputs). -/
def pyLower (s : List Char) : List Char :=
  s.map Char.toLower

/-- Python str.replace with a single-character pattern and single-character
replacement: every occurrence is replaced. -/
def pyReplaceChar (pat rep : Char) (s : List Char) : List Char :=
  s.map (fun c => if c == pat then rep else c)

/-- Python str.replace(x, "") with a single-character pattern: every
occurrence is deleted. -/
def pyDeleteChar (pat : Char) (s : List Char) : List Char :=
  s.filter (fun c => c != pat)

/-- get_target_file_name (deploy.py lines 149-164): lowercase the app name,
replace dots in the version with underscores, format as
name underscore version dot apk, then delete all spaces. -/
def get_target_file_name (app_name app_version : String) : String :=
  let app_name2 := pyLower app_name.toList
  let app_version2 := pyReplaceChar '.' '_' app_version.toList
  String.mk (pyDeleteChar ' ' (app_name2 ++ '_' :: app_version2 ++ ".apk".toList))

/-- Modelled from the spec for the C5 refinement comparison: lowercase the app
name, replace every dot in the version with an underscore, concatenate as
name underscore version dot apk, and strip all space characters. -/
def specFormatName (app_name app_version : String) : String :=
  let lowered := app_name.toList.map Char.toLower
  let dotted := app_version.toList.map (fun c => if c == '.' then '_' else c)
  String.mk ((lowered ++ '_' :: dotted ++ ".apk".toList).filter (fun c => c != ' '))

/-- The observable outcomes of the HTTP calls made during one run. -/
structure World where
  deleteStatus : Nat
  uploadStatus : Nat
  shareStatus : Nat
  shareUrl : String
  sendStatus : Nat
deriving DecidableEq

/-- upload_to_dropbox (deploy.py lines 58-104).  The delete request's outcome
(w.deleteStatus) is ignored by the script.  If the upload response status is
not ok the function returns None; if the share response status is not ok it
returns None; otherwise it returns the shared-link url with its last
character cut off and the character 1 appended (url[:-1] + '1'). -/
def upload_to_dropbox (w : World)
    (target_file_name source_file dropbox_token dropbox_folder : String) :
    Option String :=
  if w.uploadStatus ≠ REQUESTS_CODES_OK then none
  else if w.shareStatus ≠ REQUESTS_CODES_OK then none
  else some (String.mk (w.shareUrl.toList.dropLast ++ ['1']))

theorem upload_to_dropbox_ok (w : World) (a b c d : String)
    (hu : w.uploadStatus = REQUESTS_CODES_OK)
    (hs : w.shareStatus = REQUESTS_CODES_OK) :
    upload_to_dropbox w a b c d =
      some (String.mk (w.shareUrl.toList.dropLast ++ ['1'])) := by
  simp [upload_to_dropbox, hu, hs]

theorem dropLast_append_singleton (l : List Char) (c : Char) :
    (l ++ [c]).dropLast = l := by
  simp

/-- C4 counterexample: the upload arguments do not say autorename off; the
conjunction mode overwrite, autorename false, strict_conflict true is false
for the dictionary the code actually sends. -/
theorem dropbox_upload_args_claim_false :
    ¬ (DROPBOX_UPLOAD_ARGS.mode = "overwrite" ∧
       DROPBOX_UPLOAD_ARGS.autorename = false ∧
       DROPBOX_UPLOAD_ARGS.strict_conflict = true) := by
  decide

/-- C4 (amended): the upload request arguments specify mode overwrite,
autorename on (True), and strict_conflict on. -/
theorem dropbox_upload_args_amended :
    DROPBOX_UPLOAD_ARGS.mode = "overwrite" ∧
    DROPBOX_UPLOAD_ARGS.autorename = true ∧
    DROPBOX_UPLOAD_ARGS.strict_conflict = true := by
  decide

/-- C5: get_target_file_name agrees with the spec's algorithm (lowercase name,
dots to underscores, format, strip spaces) on all inputs, is deterministic,
and maps ("MyApp", "1.03") to "myapp_1_03.apk" and ("Cool App", "2.0.1") to
"coolapp_2_0_1.apk". -/
theorem get_target_file_name_spec :
    (∀ app_name app_version : String,
        get_target_file_name app_name app_version =
          specFormatName app_name app_version) ∧
    (∀ app_name app_version : String,
        get_target_file_name app_name app_version =
          get_target_file_name app_name app_version) ∧
    get_target_file_name "MyApp" "1.03" = "myapp_1_03.apk" ∧
    get_target_file_name "Cool App" "2.0.1" = "coolapp_2_0_1.apk" := by
  refine ⟨fun _ _ => rfl, fun _ _ => rfl, by decide, by decide⟩

/-- C6: when the shared link returned by the share call ends in the character
0 and both calls succeed, upload_to_dropbox returns the same link with the
final 0 replaced by 1. -/
theorem upload_share_link_zero_to_one (w : World)
    (a b c d : String) (s : List Char)
    (hu : w.uploadStatus = REQUESTS_CODES_OK)
    (hs : w.shareStatus = REQUESTS_CODES_OK)
    (hurl : w.shareUrl.toList = s ++ ['0']) :
    upload_to_dropbox w a b c d = some (String.mk (s ++ ['1'])) := by
  rw [upload_to_dropbox_ok w a b c d hu hs, hurl,
    dropLast_append_singleton]

/-- C6 witness: concrete run where the shared link is "ab0" and the result is
"ab1". -/
theorem upload_share_link_zero_to_one_witness :
    (World.mk 200 200 200 "ab0" 200).uploadStatus = REQUESTS_CODES_OK ∧
    (World.mk 200 200 200 "ab0" 200).shareStatus = REQUESTS_CODES_OK ∧
    (World.mk 200 200 200 "ab0" 200).shareUrl.toList = "ab".toList ++ ['0'] ∧
    upload_to_dropbox (World.mk 200 200 200 "ab0" 200) "t" "s" "k" "f" =
      some (String.mk ("ab".toList ++ ['1'])) :=
  ⟨by decide, by decide, by decide,
    upload_share_link_zero_to_one (World.mk 200 200 200 "ab0" 200)
      "t" "s" "k" "f" "ab".toList (by decide) (by decide) (by decide)⟩

/-- C10: regardless of what the final character of the shared link is, when
both calls succeed upload_to_dropbox returns the link with its final
character removed and 1 appended. -/
theorem upload_share_link_rewrite_unconditional (w : World)
    (a b c d : String) (s : List Char) (ch : Char)
    (hu : w.uploadStatus = REQUESTS_CODES_OK)
    (hs : w.shareStatus = REQUESTS_CODES_OK)
    (hurl : w.shareUrl.toList = s ++ [ch]) :
    upload_to_dropbox w a b c d = some (String.mk (s ++ ['1'])) := by
  rw [upload_to_dropbox_ok w a b c d hu hs, hurl,
    dropLast_append_singleton]

/-- C10 witness: a shared link ending in the letter x is still rewritten, to
"xyz1". -/
theorem upload_share_link_rewrite_unconditional_witness :
    (World.mk 200 200 200 "xyzx" 200).uploadStatus = REQUESTS_CODES_OK ∧
    (World.mk 200 200 200 "xyzx" 200).shareStatus = REQUESTS_CODES_OK ∧
    (World.mk 200 200 200 "xyzx" 200).shareUrl.toList = "xyz".toList ++ ['x'] ∧
    upload_to_dropbox (World.mk 200 200 200 "xyzx" 200) "t" "s" "k" "f" =
      some (String.mk ("xyz".toList ++ ['1'])) :=
  ⟨by decide, by decide, by decide,
    upload_share_link_rewrite_unconditional (World.mk 200 200 200 "xyzx" 200)
      "t" "s" "k" "f" "xyz".toList 'x' (by decide) (by decide) (by decide)⟩

/-- Python str.split with the two-character separator "##": the list of
segments between non-overlapping occurrences of "##", scanned left to right.
It always returns at least one segment (Python split never returns an empty
list). -/
def splitHH : List Char → List (List Char)
  | [] => [[]]
  | '#' :: '#' :: cs => [] :: splitHH cs
  | c :: cs =>
    match splitHH cs with
    | [] => [[c]]
    | seg :: rest => (c :: seg) :: rest

/-- One pass of re.sub with pattern hash dot-star optional-newline in
MULTILINE mode: every line that starts with a hash is deleted together with
its newline.  lineStart tracks whether the current position is at the start
of a line; dropping tracks whether the current line is being deleted. -/
def subHashLines (lineStart dropping : Bool) : List Char → List Char
  | [] => []
  | c :: cs =>
    let dr := if lineStart then c == '#' else dropping
    let rest := subHashLines (c == '\n') dr cs
    if dr then rest else c :: rest

/-- get_changes (deploy.py lines 167-184), with the changelog file contents
passed as the argument: split on "##", take the first segment, cut off its
last character ([:-1]), then delete every line starting with a hash. -/
def get_changes (change_log : String) : String :=
  let latest_version_changes := ((splitHH change_log.toList).headD []).dropLast
  String.mk (subHashLines true false latest_version_changes)

/-- The prefix of a character list up to (excluding) the first occurrence of
"##"; the whole list when there is none. -/
def firstSeg : List Char → List Char
  | [] => []
  | '#' :: '#' :: _ => []
  | c :: cs => c :: firstSeg cs

/-- Modelled from the spec for the C2 comparison: take the first segment of
the document split on "##", drop its trailing newline when there is one, and
delete every line starting with a hash. -/
def specGetChanges (change_log : String) : String :=
  let seg := firstSeg change_log.toList
  let seg2 := if seg.getLast? = some '\n' then seg.dropLast else seg
  String.mk (subHashLines true false seg2)

theorem splitHH_ne_nil (l : List Char) : splitHH l ≠ [] := by
  induction l using splitHH.induct with
  | case1 => simp [splitHH]
  | case2 cs ih => simp [splitHH]
  | case3 c cs h hnil ih => simp [splitHH, h, hnil]
  | case4 c cs h seg rest hcs ih => simp [splitHH, h, hcs]

theorem splitHH_head_eq_firstSeg (l : List Char) :
    (splitHH l).headD [] = firstSeg l := by
  induction l using splitHH.induct with
  | case1 => rfl
  | case2 cs ih => simp [splitHH, firstSeg]
  | case3 c cs h hnil ih => exact absurd hnil (splitHH_ne_nil cs)
  | case4 c cs h seg rest hcs ih =>
    simp [splitHH, firstSeg, h, hcs]
    simp [hcs] at ih
    exact ih

/-- C2 counterexample: on the document "abc" (whose first segment does not
end in a newline) the code drops the last character and returns "ab", while
the claim's description (drop only a trailing newline) yields "abc". -/
theorem get_changes_claim_false :
    get_changes "abc" = "ab" ∧
    specGetChanges "abc" = "abc" ∧
    get_changes "abc" ≠ specGetChanges "abc" := by
  refine ⟨by decide, by decide, by decide⟩

/-- C2 (amended): get_changes returns the first segment of the document split
on "##" with its final character dropped (whatever that character is, not
only a trailing newline) and every line starting with a hash removed under
multi-line matching; the document "notes A" newline "##" newline "notes B"
yields "notes A", and "# Release" newline "Fixed bug" newline "##" newline
"old" yields "Fixed bug". -/
theorem get_changes_spec_amended :
    (∀ doc : String,
        get_changes doc =
          String.mk (subHashLines true false ((firstSeg doc.toList).dropLast))) ∧
    get_changes "notes A\n##\nnotes B" = "notes A" ∧
    get_changes "# Release\nFixed bug\n##\nold" = "Fixed bug" := by
  refine ⟨fun doc => ?_, by decide, by decide⟩
  unfold get_changes
  rw [splitHH_head_eq_firstSeg]

/-- Placeholder marker for the app download url. -/
def PH_URL : List Char := "{app_download_url}".toList

/-- Placeholder marker for the changelog text. -/
def PH_LOG : List Char := "{change_log}".toList

/-- Placeholder marker for the app name. -/
def PH_NAME : List Char := "{app_name}".toList

/-- Placeholder marker for the app version. -/
def PH_VER : List Char := "{app_version}".toList

/-- Python str.format restricted to the four keyword markers the script uses:
scan left to right, replace each marker occurrence by the corresponding value
(values are inserted literally, not rescanned).  The fuel argument only
bounds the recursion; every step consumes at least one input character, so
fuel equal to the input length always suffices and the fuel-exhaustion
branch is never taken by pyFormat below. -/
def pyFormatAux (u cl n v : List Char) : Nat → List Char → List Char
  | _, [] => []
  | 0, l => l
  | fuel + 1, x :: xs =>
    if List.isPrefixOf PH_URL (x :: xs) then
      u ++ pyFormatAux u cl n v fuel (List.drop (PH_URL.length - 1) xs)
    else if List.isPrefixOf PH_LOG (x :: xs) then
      cl ++ pyFormatAux u cl n v fuel (List.drop (PH_LOG.length - 1) xs)
    else if List.isPrefixOf PH_NAME (x :: xs) then
      n ++ pyFormatAux u cl n v fuel (List.drop (PH_NAME.length - 1) xs)
    else if List.isPrefixOf PH_VER (x :: xs) then
      v ++ pyFormatAux u cl n v fuel (List.drop (PH_VER.length - 1) xs)
    else
      x :: pyFormatAux u cl n v fuel xs

/-- Template substitution as performed by deploy.py lines 209-216, with the
template file contents given as the last argument. -/
def pyFormat (u cl n v template : List Char) : List Char :=
  pyFormatAux u cl n v template.length template

/-- Split a character list at newline characters (keeping a possibly empty
final piece). -/
def splitNl : List Char → List (List Char)
  | [] => [[]]
  | '\n' :: cs => [] :: splitNl cs
  | c :: cs =>
    match splitNl cs with
    | [] => [[c]]
    | p :: ps => (c :: p) :: ps

/-- Python str.splitlines for newline-terminated text: the empty string gives
no lines, and a trailing newline does not create a trailing empty line. -/
def pySplitlines (l : List Char) : List (List Char) :=
  if l = [] then []
  else if l.getLast? = some '\n' then (splitNl l).dropLast
  else splitNl l

/-- Whitespace characters removed by Python str.rstrip with no argument. -/
def isPySpace (c : Char) : Bool :=
  c == ' ' || c == '\t' || c == '\n' || c == '\r' ||
    c == Char.ofNat 11 || c == Char.ofNat 12

/-- Python str.rstrip with no argument: remove trailing whitespace. -/
def pyRstrip (l : List Char) : List Char :=
  (l.reverse.dropWhile isPySpace).reverse

/-- The line loop of get_email (deploy.py lines 218-229): target 0 is
neither section, 1 is the subject, 2 is the body.  A line starting with a
hash is never emitted: it switches the target when it starts with the
subject or body marker and is silently dropped otherwise.  Any other line is
appended, with a newline, to the section selected by the current target. -/
def emailScan (target : Nat) : List (List Char) → List Char × List Char
  | [] => ([], [])
  | line :: rest =>
    if List.isPrefixOf "#".toList line then
      let target2 :=
        if List.isPrefixOf "#subject".toList line then 1
        else if List.isPrefixOf "#body".toList line then 2
        else target
      emailScan target2 rest
    else
      let p := emailScan target rest
      if target = 1 then (line ++ '\n' :: p.1, p.2)
      else if target = 2 then (p.1, line ++ '\n' :: p.2)
      else p

/-- get_email (deploy.py lines 187-231), with the template file contents
passed as the last argument: substitute the placeholders, scan the lines for
the subject and body sections, and rstrip both results. -/
def get_email (app_name app_version app_url changes template_file : String) :
    String × String :=
  let template := pyFormat app_url.toList changes.toList app_name.toList
    app_version.toList template_file.toList
  let p := emailScan 0 (pySplitlines template)
  (String.mk (pyRstrip p.1), String.mk (pyRstrip p.2))

/-- Modelled from the claim's words for the C3 comparison: every line that
does not begin with one of the two markers is appended to the active
section; only marker lines switch the target and are dropped. -/
def claimScanC3 (target : Nat) : List (List Char) → List Char × List Char
  | [] => ([], [])
  | line :: rest =>
    if List.isPrefixOf "#subject".toList line then claimScanC3 1 rest
    else if List.isPrefixOf "#body".toList line then claimScanC3 2 rest
    else
      let p := claimScanC3 target rest
      if target = 1 then (line ++ '\n' :: p.1, p.2)
      else if target = 2 then (p.1, line ++ '\n' :: p.2)
      else p

/-- Email composition as the C3 claim describes it. -/
def claimGetEmailC3 (app_name app_version app_url changes template_file : String) :
    String × String :=
  let template := pyFormat app_url.toList changes.toList app_name.toList
    app_version.toList template_file.toList
  let p := claimScanC3 0 (pySplitlines template)
  (String.mk (pyRstrip p.1), String.mk (pyRstrip p.2))

/-- Modelled from the amended C3 reading: hash lines that are not markers are
discarded; only lines not starting with a hash are appended to the active
section; lines seen before any marker are discarded. -/
def amendedScanC3 (target : Nat) : List (List Char) → List Char × List Char
  | [] => ([], [])
  | line :: rest =>
    if List.isPrefixOf "#subject".toList line then amendedScanC3 1 rest
    else if List.isPrefixOf "#body".toList line then amendedScanC3 2 rest
    else if List.isPrefixOf "#".toList line then amendedScanC3 target rest
    else
      let p := amendedScanC3 target rest
      if target = 1 then (line ++ '\n' :: p.1, p.2)
      else if target = 2 then (p.1, line ++ '\n' :: p.2)
      else p

/-- Email composition as the amended C3 claim describes it. -/
def amendedGetEmailC3 (app_name app_version app_url changes template_file : String) :
    String × String :=
  let template := pyFormat app_url.toList changes.toList app_name.toList
    app_version.toList template_file.toList
  let p := amendedScanC3 0 (pySplitlines template)
  (String.mk (pyRstrip p.1), String.mk (pyRstrip p.2))

theorem emailScan_eq_amendedScanC3 (lines : List (List Char)) :
    ∀ target : Nat, emailScan target lines = amendedScanC3 target lines := by
  induction lines with
  | nil => intro t; rfl
  | cons line rest ih =>
    intro t
    by_cases h1 : ['#', 's', 'u', 'b', 'j', 'e', 'c', 't'] <+: line
    · have hh : ['#'] <+: line :=
        List.IsPrefix.trans ⟨['s', 'u', 'b', 'j', 'e', 'c', 't'], rfl⟩ h1
      simp [emailScan, amendedScanC3, h1, hh, ih]
    · by_cases h2 : ['#', 'b', 'o', 'd', 'y'] <+: line
      · have hh : ['#'] <+: line :=
          List.IsPrefix.trans ⟨['b', 'o', 'd', 'y'], rfl⟩ h2
        simp [emailScan, amendedScanC3, h1, h2, hh, ih]
      · by_cases h3 : ['#'] <+: line
        · simp [emailScan, amendedScanC3, h1, h2, h3, ih]
        · simp [emailScan, amendedScanC3, h1, h2, h3, ih]

/-- C3 counterexample: with template "#subject" newline "#note" newline "hi",
the code discards the non-marker hash line "#note" and returns subject "hi",
while the claim's reading appends it and predicts subject "#note" newline
"hi". -/
theorem get_email_claim_false :
    get_email "a" "b" "c" "d" "#subject\n#note\nhi" = ("hi", "") ∧
    claimGetEmailC3 "a" "b" "c" "d" "#subject\n#note\nhi" = ("#note\nhi", "") ∧
    get_email "a" "b" "c" "d" "#subject\n#note\nhi" ≠
      claimGetEmailC3 "a" "b" "c" "d" "#subject\n#note\nhi" := by
  refine ⟨by decide, by decide, by decide⟩

/-- C3 (amended): after substitution, a line beginning with the subject or
body marker switches the target and is not emitted; every other line
beginning with a hash is discarded; every line not beginning with a hash is
appended with its newline to the active section; lines before either marker
are discarded. -/
theorem get_email_scan_amended :
    ∀ app_name app_version app_url changes template_file : String,
      get_email app_name app_version app_url changes template_file =
        amendedGetEmailC3 app_name app_version app_url changes template_file := by
  intro an av au ch tf
  simp only [get_email, amendedGetEmailC3, emailScan_eq_amendedScanC3]

/-- C7: the round-trip template yields subject "Hello Foo" and body
"Version 1.0 ready: http://x" for app_name "Foo", app_version "1.0" and
download url "http://x". -/
theorem get_email_round_trip :
    get_email "Foo" "1.0" "http://x" ""
        "#subject\nHello {app_name}\n#body\nVersion {app_version} ready: {app_download_url}" =
      ("Hello Foo", "Version 1.0 ready: http://x") := by
  decide

/-- True when some line of the raw template starts with the subject or body
marker. -/
def templateHasMarkerLine (t : String) : Bool :=
  (pySplitlines t.toList).any
    (fun l => List.isPrefixOf "#subject".toList l || List.isPrefixOf "#body".toList l)

/-- C8 counterexample: the template made of the single line "\x7bapp_name\x7d"
contains no marker line, yet substituting the app name "#subject" newline
"Gotcha" creates a marker line, and get_email returns ("Gotcha", ""), not
("", ""). -/
theorem get_email_no_marker_claim_false :
    templateHasMarkerLine "{app_name}" = false ∧
    get_email "#subject\nGotcha" "v" "u" "c" "{app_name}" = ("Gotcha", "") ∧
    get_email "#subject\nGotcha" "v" "u" "c" "{app_name}" ≠ ("", "") := by
  refine ⟨by decide, by decide, by decide⟩

theorem emailScan_no_marker (lines : List (List Char))
    (h : ∀ l ∈ lines,
        ¬(['#', 's', 'u', 'b', 'j', 'e', 'c', 't'] <+: l) ∧
        ¬(['#', 'b', 'o', 'd', 'y'] <+: l)) :
    emailScan 0 lines = ([], []) := by
  induction lines with
  | nil => rfl
  | cons line rest ih =>
    have h1 := (h line (List.mem_cons_self line rest)).1
    have h2 := (h line (List.mem_cons_self line rest)).2
    have ih2 := ih (fun l hl => h l (List.mem_cons_of_mem line hl))
    by_cases hh : ['#'] <+: line
    · simp [emailScan, hh, h1, h2, ih2]
    · simp [emailScan, hh, ih2]

/-- C8 (amended): when after placeholder substitution no line of the rendered
template begins with the subject marker or the body marker, get_email
returns the pair of empty strings, silently. -/
theorem get_email_no_marker_amended :
    ∀ app_name app_version app_url changes template_file : String,
      (∀ l ∈ pySplitlines (pyFormat app_url.toList changes.toList
          app_name.toList app_version.toList template_file.toList),
        ¬(['#', 's', 'u', 'b', 'j', 'e', 'c', 't'] <+: l) ∧
        ¬(['#', 'b', 'o', 'd', 'y'] <+: l)) →
      get_email app_name app_version app_url changes template_file = ("", "") := by
  intro an av au ch tf h
  show (String.mk (pyRstrip (emailScan 0 (pySplitlines (pyFormat au.toList
      ch.toList an.toList av.toList tf.toList))).1),
    String.mk (pyRstrip (emailScan 0 (pySplitlines (pyFormat au.toList
      ch.toList an.toList av.toList tf.toList))).2)) = ("", "")
  rw [emailScan_no_marker _ h]
  rfl

/-- C8 witness: a concrete marker-free rendering where get_email returns two
empty strings. -/
theorem get_email_no_marker_amended_witness :
    (∀ l ∈ pySplitlines (pyFormat "u".toList "c".toList "N".toList
        "v".toList "hello\nworld".toList),
      ¬(['#', 's', 'u', 'b', 'j', 'e', 'c', 't'] <+: l) ∧
      ¬(['#', 'b', 'o', 'd', 'y'] <+: l)) ∧
    get_email "N" "v" "u" "c" "hello\nworld" = ("", "") :=
  ⟨by decide, get_email_no_marker_amended "N" "v" "u" "c" "hello\nworld" (by decide)⟩

/-- send_email (deploy.py lines 107-127): one POST to the webhook; returns
whether the response status is ok. -/
def send_email (w : World) (zapier_hook email_to subject body : String) : Bool :=
  w.sendStatus == REQUESTS_CODES_OK

/-- get_changes as it is consumed by the driver: the Python function always
reaches its return statement with a str value (read failures raise instead
of returning), so the dynamically-typed result compared against None in the
driver is always present. -/
def get_changes_opt (change_log : String) : Option String :=
  some (get_changes change_log)

/-- get_email as it is consumed by the driver: the Python function always
returns a pair of str values (possibly empty), never None, so both
components compared against None in the driver are always present. -/
def get_email_opt (app_name app_version app_url changes template_file : String) :
    Option String × Option String :=
  (some (get_email app_name app_version app_url changes template_file).1,
    some (get_email app_name app_version app_url changes template_file).2)

/-- Observable outcome of one driver run: the process exit code (0 when the
script falls off the end) and which later stages were reached. -/
structure PipelineResult where
  exitCode : Nat
  changesAttempted : Bool
  emailAttempted : Bool
  webhookPosted : Bool
deriving DecidableEq

/-- The driver (deploy.py lines 246-269) after get_app has produced the app
version and file: build the target name, upload, and exit 1 when the upload
stage returns None; otherwise extract the changes and exit 4 when they are
None; otherwise compose the email and exit 3 when subject or body is None;
otherwise POST to the webhook and exit 2 when that fails, else exit 0. -/
def runPipeline (w : World)
    (app_name app_version app_file changelog_contents template_contents
      dropbox_token dropbox_folder zapier_hook email_to : String) :
    PipelineResult :=
  let target_app_file := get_target_file_name app_name app_version
  match upload_to_dropbox w target_app_file app_file dropbox_token dropbox_folder with
  | none =>
    { exitCode := DROPBOX_ERROR_CODE
      changesAttempted := false
      emailAttempted := false
      webhookPosted := false }
  | some file_url =>
    match get_changes_opt changelog_contents with
    | none =>
      { exitCode := CHANGES_ERROR_CODE
        changesAttempted := true
        emailAttempted := false
        webhookPosted := false }
    | some latest_changes =>
      match get_email_opt app_name app_version file_url latest_changes
          template_contents with
      | (some subject, some body) =>
        if send_email w zapier_hook email_to subject body then
          { exitCode := 0
            changesAttempted := true
            emailAttempted := true
            webhookPosted := true }
        else
          { exitCode := ZAPIER_ERROR_CODE
            changesAttempted := true
            emailAttempted := true
            webhookPosted := true }
      | _ =>
        { exitCode := TEMPLATE_ERROR_CODE
          changesAttempted := true
          emailAttempted := true
          webhookPosted := false }

/-- C1: when the upload call or the share-link call does not report success,
upload_to_dropbox returns None and the driver exits with code 1 without
attempting the changelog, composition or notification stages, and without
any POST to the webhook. -/
theorem upload_failure_aborts_pipeline :
    ∀ (w : World) (an av af cl tf dt df zh et : String),
      w.uploadStatus ≠ REQUESTS_CODES_OK ∨ w.shareStatus ≠ REQUESTS_CODES_OK →
      upload_to_dropbox w (get_target_file_name an av) af dt df = none ∧
      runPipeline w an av af cl tf dt df zh et =
        { exitCode := DROPBOX_ERROR_CODE
          changesAttempted := false
          emailAttempted := false
          webhookPosted := false } := by
  intro w an av af cl tf dt df zh et h
  have hnone : upload_to_dropbox w (get_target_file_name an av) af dt df = none := by
    rcases h with h | h
    · simp [upload_to_dropbox, h]
    · by_cases hu : w.uploadStatus = REQUESTS_CODES_OK
      · simp [upload_to_dropbox, hu, h]
      · simp [upload_to_dropbox, hu]
  exact ⟨hnone, by simp [runPipeline, hnone]⟩

/-- C1 witness: a concrete run whose upload response status is 500. -/
theorem upload_failure_aborts_pipeline_witness :
    ((World.mk 200 500 200 "url0" 200).uploadStatus ≠ REQUESTS_CODES_OK ∨
      (World.mk 200 500 200 "url0" 200).shareStatus ≠ REQUESTS_CODES_OK) ∧
    upload_to_dropbox (World.mk 200 500 200 "url0" 200)
        (get_target_file_name "MyApp" "1.0") "app.apk" "tok" "folder" = none ∧
    runPipeline (World.mk 200 500 200 "url0" 200) "MyApp" "1.0" "app.apk"
        "log" "tpl" "tok" "folder" "hook" "a@b" =
      { exitCode := DROPBOX_ERROR_CODE
        changesAttempted := false
        emailAttempted := false
        webhookPosted := false } :=
  ⟨Or.inl (by decide),
    (upload_failure_aborts_pipeline (World.mk 200 500 200 "url0" 200)
      "MyApp" "1.0" "app.apk" "log" "tpl" "tok" "folder" "hook" "a@b"
      (Or.inl (by decide))).1,
    (upload_failure_aborts_pipeline (World.mk 200 500 200 "url0" 200)
      "MyApp" "1.0" "app.apk" "log" "tpl" "tok" "folder" "hook" "a@b"
      (Or.inl (by decide))).2⟩

theorem runPipeline_exit_cases (w : World) (an av af cl tf dt df zh et : String) :
    (runPipeline w an av af cl tf dt df zh et).exitCode = DROPBOX_ERROR_CODE ∨
    (runPipeline w an av af cl tf dt df zh et).exitCode = 0 ∨
    (runPipeline w an av af cl tf dt df zh et).exitCode = ZAPIER_ERROR_CODE := by
  cases hup : upload_to_dropbox w (get_target_file_name an av) af dt df with
  | none => left; simp [runPipeline, hup]
  | some u =>
    right
    simp only [runPipeline, hup, get_changes_opt, get_email_opt]
    split
    · left; rfl
    · right; rfl

/-- C9: get_changes never returns the absent sentinel, neither component of
get_email is ever absent, and consequently the driver's exit code is never
CHANGES_ERROR_CODE (4) or TEMPLATE_ERROR_CODE (3): those failure branches
are unreachable. -/
theorem dead_error_code_branches :
    ∀ (w : World) (an av af cl tf dt df zh et : String),
      get_changes_opt cl ≠ none ∧
      (∀ url changes : String,
        (get_email_opt an av url changes tf).1 ≠ none ∧
        (get_email_opt an av url changes tf).2 ≠ none) ∧
      (runPipeline w an av af cl tf dt df zh et).exitCode ≠ CHANGES_ERROR_CODE ∧
      (runPipeline w an av af cl tf dt df zh et).exitCode ≠ TEMPLATE_ERROR_CODE := by
  intro w an av af cl tf dt df zh et
  refine ⟨by simp [get_changes_opt],
    fun url changes => ⟨by simp [get_email_opt], by simp [get_email_opt]⟩, ?_, ?_⟩
  · rcases runPipeline_exit_cases w an av af cl tf dt df zh et with h | h | h <;>
      simp [h, DROPBOX_ERROR_CODE, CHANGES_ERROR_CODE, ZAPIER_ERROR_CODE]
  · rcases runPipeline_exit_cases w an av af cl tf dt df zh et with h | h | h <;>
      simp [h, DROPBOX_ERROR_CODE, TEMPLATE_ERROR_CODE, ZAPIER_ERROR_CODE]

end Deploy
